import Mathlib

/-!
Verification development for the bridge condition monitoring repository.

The repository has two scripts:
* `main.py` — a YOLO-based crack detection loop that draws boxes on video
  frames, periodically inserts detection documents into a MongoDB
  `detections` collection (storing a JPEG snapshot in GridFS for severe
  cracks), and publishes the literal payload `"1"` on an MQTT topic with a
  one-second cooldown;
* `dashboard.py` — a Streamlit dashboard that loads the `detections`
  collection into a pandas dataframe, normalizes/filters it, reassembles
  GridFS images, and runs a background MQTT listener that inserts alert
  documents.

This file gives a shallow embedding of the logic of both scripts:
dataframes are lists of rows, MongoDB collections are lists of documents,
machine floats from the scripts are modelled as rationals, and calls into
external libraries (pandas datetime parsing, PIL image decoding, the MQTT
transport) are modelled at their observable boundary.  Python rounds that
do not kernel-reduce in Lean (`str.lower`, string ordering) are modelled
over the character list of a `String`.
-/

/-- Python `s.lower()`, modelled characterwise over the string data. -/
def pyLower (s : String) : String := String.mk (s.data.map Char.toLower)

/-- Python `str(x)` for an optional string value: `None` prints as `"None"`. -/
def pyStr : Option String → String
  | none => "None"
  | some s => s

/-- The (total) lexicographic order Python `sorted` uses on strings,
stated over the character lists so that it kernel-reduces. -/
def pyStrLe (a b : String) : Prop := a.data < b.data ∨ a = b

instance : DecidableRel pyStrLe := fun a b =>
  inferInstanceAs (Decidable (a.data < b.data ∨ a = b))

namespace Dashboard

/-- A datetime value as produced by `pd.to_datetime`: a date (counted as an
integer day number) and a time of day in seconds. -/
structure PDateTime where
  date : ℤ
  timeOfDay : ℚ
deriving DecidableEq, Repr

/-- A raw document of the `detections` collection as loaded by
`detections.find()` (dashboard.py lines 100-110).  Each field may be
absent (`none`).  The `timestamp` field models the input to
`pd.to_datetime(..., errors="coerce")`: `none` is a missing field,
`some none` is a present value that fails to parse (coerced to `NaT`),
and `some (some t)` parses to the datetime `t`. -/
structure RawDetection where
  label : Option String
  confidence : Option ℚ
  timestamp : Option (Option PDateTime)
  video_source : Option String
  image_id : Option ℕ
  frame_id : Option ℤ
deriving DecidableEq, Repr

/-- The value a row's `image_id` dataframe cell can hold after loading.
Pandas fills a key missing from one document with `NaN` when some other
document has it (the column exists), while the normalization of
dashboard.py lines 108-110 fills a wholly absent column with `None`; a
present value is an ObjectId (modelled by a natural number).  Python
truthiness distinguishes the cases: `None` is falsy, but `NaN` and an
ObjectId are truthy. -/
inductive ImageRef where
  | pyNone
  | nan
  | oid (fid : ℕ)
deriving DecidableEq, Repr

/-- A normalized dataframe row after dashboard.py lines 106-115:
`label` lowercased via `astype(str).str.lower()`, `timestamp` parsed with
coercion to `NaT` (modelled as `none`), `video_source` filled with
`"unknown_source"`, and derived `date`/`time` columns.  The `image_id`
cell keeps the pandas distinction between a column-absent `None`, a
row-missing `NaN`, and a stored ObjectId. -/
structure DetRow where
  label : String
  confidence : Option ℚ
  timestamp : Option PDateTime
  video_source : String
  image_id : ImageRef
  frame_id : Option ℤ
  date : Option ℤ
  time : Option ℚ
deriving DecidableEq, Repr

/-- Normalization of one loaded document (dashboard.py lines 106-115).
`imageCol` says whether the `image_id` column exists at all, i.e. whether
any loaded document carries the field: if it does, a document without the
field gets pandas `NaN`; if no document carries it, lines 108-110 create
the column filled with `None`. -/
def normalizeRow (imageCol : Bool) (r : RawDetection) : DetRow :=
  let ts : Option PDateTime :=
    match r.timestamp with
    | none => none
    | some none => none
    | some (some t) => some t
  { label := pyLower (pyStr r.label)
    confidence := r.confidence
    timestamp := ts
    video_source := r.video_source.getD "unknown_source"
    image_id :=
      match r.image_id with
      | some fid => .oid fid
      | none => if imageCol then .nan else .pyNone
    frame_id := r.frame_id
    date := ts.map PDateTime.date
    time := ts.map PDateTime.timeOfDay }

/-- The dataframe built from the `detections` collection
(dashboard.py lines 100-115): the `image_id` column exists exactly when
some document carries the field. -/
def loadDetections (docs : List RawDetection) : List DetRow :=
  docs.map (normalizeRow (docs.any fun d => d.image_id.isSome))

/-- `sorted(df["label"].dropna().unique())` (dashboard.py line 120).
After normalization the label column holds strings only, so `dropna` is
the identity; `unique` keeps one copy of each label and `sorted` orders
them. -/
def labels (df : List DetRow) : List String :=
  List.insertionSort pyStrLe (df.map DetRow.label).dedup

/-- `sorted(df["video_source"].dropna().unique())` (dashboard.py line 121). -/
def sources (df : List DetRow) : List String :=
  List.insertionSort pyStrLe (df.map DetRow.video_source).dedup

/-- The boolean mask of `filtered_df` (dashboard.py lines 141-146): label in
the selected labels, video source in the selected sources, and date within
the selected range.  A `NaT` date (modelled as `none`) compares false on
both range bounds, exactly as in pandas. -/
def rowMatches (selLabels selSources : List String) (startDate endDate : ℤ)
    (r : DetRow) : Bool :=
  selLabels.contains r.label && selSources.contains r.video_source &&
    (match r.date with
     | some d => decide (startDate ≤ d) && decide (d ≤ endDate)
     | none => false)

/-- `filtered_df` (dashboard.py lines 140-146) before the deselect-all
fallback is taken into account. -/
def filtered_df (df : List DetRow) (selLabels selSources : List String)
    (startDate endDate : ℤ) : List DetRow :=
  df.filter (rowMatches selLabels selSources startDate endDate)

/-- The full filter pipeline (dashboard.py lines 134-148): an empty label
or source multiselect is first replaced by the full option list (the
deselect-all fallback, lines 134-138), then the row mask is applied; an
empty dataframe yields an empty filtered dataframe. -/
def applyFilters (df : List DetRow) (selLabels selSources : List String)
    (startDate endDate : ℤ) : List DetRow :=
  let selLabels' := if df ≠ [] ∧ selLabels = [] then labels df else selLabels
  let selSources' := if df ≠ [] ∧ selSources = [] then sources df else selSources
  if df ≠ [] then filtered_df df selLabels' selSources' startDate endDate else []

/-- Minimum of a list of integers, `none` on the empty list; models the
pandas `Series.min()` over the non-`NaT` dates. -/
def minD : List ℤ → Option ℤ
  | [] => none
  | d :: ds =>
    match minD ds with
    | none => some d
    | some m => some (min d m)

/-- Maximum of a list of integers, `none` on the empty list; models the
pandas `Series.max()` over the non-`NaT` dates. -/
def maxD : List ℤ → Option ℤ
  | [] => none
  | d :: ds =>
    match maxD ds with
    | none => some d
    | some m => some (max d m)

/-- `df["date"].min()` (dashboard.py line 128): pandas skips `NaT` values. -/
def minDate (df : List DetRow) : Option ℤ := minD (df.filterMap DetRow.date)

/-- `df["date"].max()` (dashboard.py line 129). -/
def maxDate (df : List DetRow) : Option ℤ := maxD (df.filterMap DetRow.date)

/-- A document of the `fs.chunks` GridFS collection: owning file id, chunk
index `n`, and the chunk's bytes. -/
structure Chunk where
  files_id : ℕ
  n : ℤ
  data : List ℕ
deriving DecidableEq, Repr

/-- The ordering used by `fs_chunks.find(...).sort("n", 1)`: ascending in
the chunk index `n`. -/
def chunkLe (a b : Chunk) : Prop := a.n ≤ b.n

instance : DecidableRel chunkLe := fun a b =>
  inferInstanceAs (Decidable (a.n ≤ b.n))

instance : IsTotal Chunk chunkLe := ⟨fun a b => Int.le_total a.n b.n⟩

instance : IsTrans Chunk chunkLe := ⟨fun _ _ _ h1 h2 => le_trans h1 h2⟩

/-- GridFS image reassembly (dashboard.py lines 225-226): select the chunks
whose `files_id` is the given file id, sort them ascending by `n`, and
concatenate their data.  The MongoDB sort is modelled by a stable sort. -/
def reassembleImage (chunks : List Chunk) (fid : ℕ) : List ℕ :=
  ((List.insertionSort chunkLe (chunks.filter fun c => c.files_id == fid)).map
    Chunk.data).flatten

/-- Observable outcome of rendering one record of the Recent Severe Crack
Detections section (dashboard.py lines 211-235). -/
inductive RenderOutcome where
  | warnNoImage
  | warnNotFound
  | rendered (bytes : List ℕ)
  | errorShown
deriving DecidableEq, Repr

/-- Whether an outcome is one of the two `st.warning` branches. -/
def RenderOutcome.isWarning : RenderOutcome → Bool
  | .warnNoImage => true
  | .warnNotFound => true
  | _ => false

/-- Rendering of one severe-crack record (dashboard.py lines 211-235).
Line 214 tests `if not image_id:` with Python truthiness: a falsy `None`
cell yields a warning (lines 214-216), but a `NaN` cell is truthy, so the
code enters the try block where `ObjectId(nan)` raises `TypeError` into
the except handler, which shows an error (lines 219, 234-235).  For a
stored ObjectId, a reference absent from the `fs.files` collection yields
a warning (lines 220-223); otherwise the chunks are reassembled and
handed to the image decoder, a decoder failure being caught and shown as
an error (lines 227, 234-235).  `files` models the set of `_id` values
present in `fs.files`, and `decodeOk` models whether `PIL.Image.open`
succeeds on given bytes. -/
def renderRecord (files : List ℕ) (chunks : List Chunk)
    (decodeOk : List ℕ → Bool) (r : DetRow) : RenderOutcome :=
  match r.image_id with
  | .pyNone => .warnNoImage
  | .nan => .errorShown
  | .oid fid =>
    if files.contains fid then
      let bytes := reassembleImage chunks fid
      if decodeOk bytes then .rendered bytes else .errorShown
    else .warnNotFound

/-- The rendering loop over the displayed severe-crack records
(dashboard.py line 211): every record is processed, each producing one
outcome. -/
def renderSevereImages (files : List ℕ) (chunks : List Chunk)
    (decodeOk : List ℕ → Bool) (records : List DetRow) : List RenderOutcome :=
  records.map (renderRecord files chunks decodeOk)

/-- A JSON value as produced by `json.loads`. -/
inductive JVal where
  | null
  | bool (b : Bool)
  | num (q : ℚ)
  | str (s : String)
  | arr (elts : List JVal)
  | obj (fields : List (String × JVal))

/-- Python truthiness of a value produced by `json.loads`. -/
def pyTruthy : JVal → Bool
  | .null => false
  | .bool b => b
  | .num q => !(q == 0)
  | .str s => !(s == "")
  | .arr elts => !elts.isEmpty
  | .obj fields => !fields.isEmpty

/-- Truthiness of an optional Python value; `none` models Python `None`. -/
def pyTruthyOpt : Option JVal → Bool
  | none => false
  | some v => pyTruthy v

/-- JSON object field lookup; dict keys are unique so the first match is
the binding. -/
def jGet (fields : List (String × JVal)) (k : String) : Option JVal :=
  match fields.find? (fun p => p.1 == k) with
  | some p => some p.2
  | none => none

/-- The Python value of `data.get("value", None)` (dashboard.py line 71):
an absent key and a JSON `null` both give Python `None`. -/
def pyGetValue (fields : List (String × JVal)) : Option JVal :=
  match jGet fields "value" with
  | some .null => none
  | v => v

/-- The Python value of `data.get("type", "UNKNOWN")` (dashboard.py line
70): the default `"UNKNOWN"` applies only when the key is absent; a JSON
`null` stored under `"type"` gives Python `None`. -/
def alertTypeOf (fields : List (String × JVal)) : Option JVal :=
  match jGet fields "type" with
  | none => some (.str "UNKNOWN")
  | some .null => none
  | some v => some v

/-- An alert document as built by `store_alert` (dashboard.py lines 46-53). -/
structure AlertDoc where
  timestamp : String
  alert_type : Option JVal
  value : Option JVal
  device_id : String

/-- `store_alert` (dashboard.py lines 46-54): build the alert document
inserted into the `alerts` collection. -/
def store_alert (ts devId : String) (alertType alertValue : Option JVal) :
    AlertDoc :=
  { timestamp := ts, alert_type := alertType, value := alertValue,
    device_id := devId }

/-- An incoming MQTT payload at the boundary of `msg.payload.decode()` and
`json.loads`: the bytes may fail to decode, the decoded string may fail to
parse, or parsing yields a JSON value. -/
inductive MsgPayload where
  | undecodable
  | unparseable (s : String)
  | parsed (v : JVal)

/-- `on_message` (dashboard.py lines 64-75): decode and JSON-parse the
payload, read `type` (default `"UNKNOWN"`) and `value` (default `None`),
and insert one alert document when the type value is truthy and the value
is not `None`.  Any exception (decode failure, parse failure, attribute
lookup on a non-object) is caught and printed, inserting nothing; a falsy
type or missing value also inserts nothing.  The result is the document
inserted into the `alerts` collection, if any. -/
def on_message (ts devId : String) (p : MsgPayload) : Option AlertDoc :=
  match p with
  | .undecodable => none
  | .unparseable _ => none
  | .parsed (.obj fields) =>
    let alertType := alertTypeOf fields
    let alertValue := pyGetValue fields
    if pyTruthyOpt alertType && alertValue.isSome then
      some (store_alert ts devId alertType alertValue)
    else none
  | .parsed _ => none

end Dashboard

namespace Main

/-- Fixed constants of the detection loop (main.py lines 102-104):
`store_interval = 20` and `send_interval = 1.0` seconds. -/
def store_interval : ℕ := 20

/-- The publish cooldown in seconds (main.py line 104). -/
def send_interval : ℚ := 1

/-- One YOLO box as consumed by the loop body (main.py lines 124-128):
its confidence and the class name `model.names[cls]` before lowercasing.
Box coordinates only feed the drawing calls and are omitted. -/
structure Box where
  conf : ℚ
  name : String
deriving DecidableEq, Repr

/-- The qualifying test of main.py line 130:
`label in ["cracks", "severe crack"] and conf > 0.6` with
`label = model.names[cls].lower()`.  The literal `0.6` is written
`mkRat 6 10` so that it kernel-reduces. -/
def qualifies (b : Box) : Bool :=
  ["cracks", "severe crack"].contains (pyLower b.name) &&
    decide (mkRat 6 10 < b.conf)

/-- A document inserted into the `detections` collection
(main.py lines 144-157). -/
structure DetDoc where
  timestamp : String
  label : String
  confidence : ℚ
  frame_id : ℤ
  video_source : String
  image_id : Option ℕ
deriving DecidableEq, Repr

/-- The per-frame data read from the environment during one iteration of
the `while run_flag` loop: the YOLO boxes of the frame, the capture
position `cap.get(cv2.CAP_PROP_POS_FRAMES)`, the wall-clock value of
`datetime.utcnow().isoformat()`, the value of `time.time()` at the
publish-cooldown check (line 160), the value of `time.time()` taken right
after a successful publish (line 164), and whether `mqtt_client.publish`
raises. -/
structure LoopInput where
  boxes : List Box
  framePos : ℤ
  timestamp : String
  tNow : ℚ
  tAfter : ℚ
  publishOk : Bool
deriving DecidableEq, Repr

/-- Run configuration: whether the MQTT connect at main.py lines 46-52
succeeded (otherwise `mqtt_client` is `None` and line 161 skips the
publish), and the `video_source_name` recorded in documents. -/
structure Config where
  mqttConnected : Bool
  video_source_name : String
deriving DecidableEq, Repr

/-- Accumulator of the box loop (main.py lines 123-157): the two per-frame
flags, the documents inserted while scanning this frame's boxes, and the
next fresh GridFS id (modelling `fs.put`, which returns a fresh id for
every stored snapshot). -/
structure BoxScan where
  crack_detected : Bool
  severe_crack_detected : Bool
  newDocs : List DetDoc
  nextImageId : ℕ
deriving DecidableEq, Repr

/-- The body of the box loop for one box (main.py lines 124-157): a
qualifying box sets the severe or plain crack flag, and, when the frame
counter is divisible by `store_interval`, builds and inserts a detection
document, storing a snapshot in GridFS first when the label is
`"severe crack"`. -/
def stepBox (cfg : Config) (fc : ℕ) (framePos : ℤ) (ts : String)
    (acc : BoxScan) (b : Box) : BoxScan :=
  if qualifies b then
    let label := pyLower b.name
    let severe := label == "severe crack"
    let acc' :=
      if severe then { acc with severe_crack_detected := true }
      else { acc with crack_detected := true }
    if fc % store_interval == 0 then
      if severe then
        { acc' with
          newDocs := acc'.newDocs ++
            [⟨ts, label, b.conf, framePos, cfg.video_source_name,
              some acc'.nextImageId⟩]
          nextImageId := acc'.nextImageId + 1 }
      else
        { acc' with
          newDocs := acc'.newDocs ++
            [⟨ts, label, b.conf, framePos, cfg.video_source_name, none⟩] }
    else acc'
  else acc

/-- Scan of all boxes of one frame (main.py lines 119-157), starting from
cleared flags and no inserted documents. -/
def boxScan (cfg : Config) (fc : ℕ) (inp : LoopInput) (nid : ℕ) : BoxScan :=
  inp.boxes.foldl (stepBox cfg fc inp.framePos inp.timestamp)
    ⟨false, false, [], nid⟩

/-- Loop state across frames: the `frame_counter` and `last_send_time`
variables of main.py lines 103-105, together with the observable history
(documents inserted into `detections`, payloads published on the crack
topic) and the fresh-id counter for GridFS. -/
structure DetState where
  frame_counter : ℕ
  last_send_time : ℚ
  docs : List DetDoc
  msgs : List String
  nextImageId : ℕ
deriving DecidableEq, Repr

/-- Initial loop state (main.py lines 102-105). -/
def initState : DetState := ⟨0, 0, [], [], 0⟩

/-- The publish-attempt condition of main.py lines 160-161:
a crack or severe crack was detected in this frame, strictly more than
`send_interval` seconds elapsed since `last_send_time`, and the MQTT
client is connected. -/
def attemptCond (cfg : Config) (s : DetState) (inp : LoopInput) : Bool :=
  let scan := boxScan cfg (s.frame_counter + 1) inp s.nextImageId
  (scan.crack_detected || scan.severe_crack_detected) &&
    decide (inp.tNow - s.last_send_time > send_interval) && cfg.mqttConnected

/-- One iteration of the `while run_flag` loop (main.py lines 110-171):
increment the frame counter, scan the boxes (inserting documents), and
publish `"1"` when the attempt condition holds and `publish` does not
raise, recording the post-publish `time.time()` in `last_send_time`. -/
def stepFrame (cfg : Config) (s : DetState) (inp : LoopInput) : DetState :=
  let fc := s.frame_counter + 1
  let scan := boxScan cfg fc inp s.nextImageId
  if attemptCond cfg s inp && inp.publishOk then
    ⟨fc, inp.tAfter, s.docs ++ scan.newDocs, s.msgs ++ ["1"],
      scan.nextImageId⟩
  else
    ⟨fc, s.last_send_time, s.docs ++ scan.newDocs, s.msgs, scan.nextImageId⟩

/-- The whole detection run over the frames read before the capture ends
or the user stops it. -/
def runDetection (cfg : Config) (inputs : List LoopInput) : DetState :=
  inputs.foldl (stepFrame cfg) initState

/-- The loop state after the first `k` frames. -/
def runUpTo (cfg : Config) (inputs : List LoopInput) (k : ℕ) : DetState :=
  (inputs.take k).foldl (stepFrame cfg) initState

/-- Whether frame `i` performs a successful publish, read off the
observable history: the published-message count grows across step `i`. -/
def publishesAt (cfg : Config) (inputs : List LoopInput) (i : ℕ) : Bool :=
  (runUpTo cfg inputs i).msgs.length < (runUpTo cfg inputs (i + 1)).msgs.length

/-- Whether frame `i` attempts a publish, i.e. reaches the
`mqtt_client.publish` call of main.py line 163. -/
def attemptAt (cfg : Config) (inputs : List LoopInput) (i : ℕ) : Bool :=
  match inputs[i]? with
  | some inp => attemptCond cfg (runUpTo cfg inputs i) inp
  | none => false

/-- Number of qualifying boxes of one frame. -/
def numQualifying (boxes : List Box) : ℕ := (boxes.filter qualifies).length

/-- Total number of qualifying detections encountered during a run. -/
def totalQualifying (inputs : List LoopInput) : ℕ :=
  (inputs.map fun inp => numQualifying inp.boxes).sum

/-- Real-time side conditions of a run: within each frame the cooldown
check happens no later than the post-publish clock read, and the clock is
monotone across frames. -/
def chronological (inputs : List LoopInput) : Prop :=
  (∀ i : Fin inputs.length, (inputs.get i).tNow ≤ (inputs.get i).tAfter) ∧
  ∀ i j : Fin inputs.length, (i : ℕ) < (j : ℕ) →
    (inputs.get i).tAfter ≤ (inputs.get j).tNow

instance (inputs : List LoopInput) : Decidable (chronological inputs) :=
  inferInstanceAs (Decidable (_ ∧ _))

/-- Modelled from the amended reading of the persistence claim: the number
of detection documents the loop inserts, counted frame by frame — every
qualifying box of a frame whose (1-based) frame counter is divisible by
`store_interval` contributes one document, and no other box does. -/
def expectedDocCount (fc : ℕ) : List LoopInput → ℕ
  | [] => 0
  | inp :: rest =>
    (if (fc + 1) % store_interval == 0 then numQualifying inp.boxes else 0) +
      expectedDocCount (fc + 1) rest

end Main

/-! ## Helper lemmas -/

namespace Dashboard

theorem minD_eq_none {l : List ℤ} : minD l = none ↔ l = [] := by
  cases l with
  | nil => simp [minD]
  | cons d ds =>
    unfold minD
    cases minD ds <;> simp

theorem minD_le {l : List ℤ} {m : ℤ} (hm : minD l = some m) :
    ∀ x ∈ l, m ≤ x := by
  induction l generalizing m with
  | nil => simp [minD] at hm
  | cons d ds ih =>
    intro x hx
    unfold minD at hm
    rcases hds : minD ds with _ | m'
    · rw [hds] at hm
      simp only [Option.some.injEq] at hm
      subst hm
      have : ds = [] := minD_eq_none.mp hds
      subst this
      rcases List.mem_cons.mp hx with h | h
      · exact le_of_eq h.symm
      · simp at h
    · rw [hds] at hm
      simp only [Option.some.injEq] at hm
      subst hm
      rcases List.mem_cons.mp hx with h | h
      · exact h ▸ min_le_left _ _
      · exact le_trans (min_le_right _ _) (ih hds x h)

theorem maxD_eq_none {l : List ℤ} : maxD l = none ↔ l = [] := by
  cases l with
  | nil => simp [maxD]
  | cons d ds =>
    unfold maxD
    cases maxD ds <;> simp

theorem le_maxD {l : List ℤ} {M : ℤ} (hM : maxD l = some M) :
    ∀ x ∈ l, x ≤ M := by
  induction l generalizing M with
  | nil => simp [maxD] at hM
  | cons d ds ih =>
    intro x hx
    unfold maxD at hM
    rcases hds : maxD ds with _ | M'
    · rw [hds] at hM
      simp only [Option.some.injEq] at hM
      subst hM
      have : ds = [] := maxD_eq_none.mp hds
      subst this
      rcases List.mem_cons.mp hx with h | h
      · exact le_of_eq h
      · simp at h
    · rw [hds] at hM
      simp only [Option.some.injEq] at hM
      subst hM
      rcases List.mem_cons.mp hx with h | h
      · exact h ▸ le_max_left _ _
      · exact le_trans (ih hds x h) (le_max_right _ _)

theorem mem_labels {df : List DetRow} {r : DetRow} (hr : r ∈ df) :
    r.label ∈ labels df :=
  ((List.perm_insertionSort pyStrLe _).mem_iff).mpr
    (List.mem_dedup.mpr (List.mem_map_of_mem DetRow.label hr))

theorem mem_sources {df : List DetRow} {r : DetRow} (hr : r ∈ df) :
    r.video_source ∈ sources df :=
  ((List.perm_insertionSort pyStrLe _).mem_iff).mpr
    (List.mem_dedup.mpr (List.mem_map_of_mem DetRow.video_source hr))

end Dashboard

/-! ## Claim theorems for dashboard.py -/

/-- C7: for every severe-crack record rendered with a stored image, the
displayed image bytes are exactly the concatenation of the data of the
GridFS chunks whose `files_id` equals the record's image id, taken in
ascending order of the chunk index `n`: the reassembled bytes are the
flattened data of a sorted-by-`n` permutation of exactly those chunks. -/
theorem C7_chunk_reassembly (chunks : List Dashboard.Chunk) (fid : ℕ) :
    ∃ l : List Dashboard.Chunk,
      l.Perm (chunks.filter fun c => c.files_id == fid) ∧
      l.Sorted Dashboard.chunkLe ∧
      Dashboard.reassembleImage chunks fid = (l.map Dashboard.Chunk.data).flatten :=
  ⟨List.insertionSort Dashboard.chunkLe
      (chunks.filter fun c => c.files_id == fid),
    List.perm_insertionSort _ _,
    List.sorted_insertionSort Dashboard.chunkLe _,
    rfl⟩

/-- C8 (counterexample to the claim as stated): a collection of two
severe-crack documents, the first carrying a stored image reference and
the second carrying none.  Because the first document makes the
`image_id` column exist, the second document's cell loads as pandas
`NaN`, which is truthy, so `if not image_id:` does not fire; the code
enters the try block, `ObjectId(nan)` raises, and the record is shown
with `st.error` — not the warning the claim requires. -/
theorem C8_counterexample :
    Dashboard.loadDetections
        [⟨some "severe crack", some 1, some (some ⟨0, 0⟩), some "vid",
          some 5, some 1⟩,
          ⟨some "severe crack", some 1, some (some ⟨0, 0⟩), some "vid",
            none, some 2⟩] =
        [⟨"severe crack", some 1, some ⟨0, 0⟩, "vid", .oid 5, some 1, some 0,
          some 0⟩,
          ⟨"severe crack", some 1, some ⟨0, 0⟩, "vid", .nan, some 2, some 0,
            some 0⟩] ∧
      Dashboard.renderRecord [5] [] (fun _ => true)
          ⟨"severe crack", some 1, some ⟨0, 0⟩, "vid", .nan, some 2, some 0,
            some 0⟩ =
        .errorShown ∧
      Dashboard.RenderOutcome.errorShown.isWarning = false := by
  refine ⟨by decide, by decide, by decide⟩

/-- C8 (amended): for every record rendered in the Recent Severe Crack
Detections section that has no usable stored image, the dashboard
continues to the next record instead of failing, but the feedback shown
depends on how the image is missing: a falsy `None` cell (the case when
no loaded document carried the `image_id` field and the column was
filled with `None`) is shown as a warning, as is a stored reference whose
file document is absent from the large-object store; a `NaN` cell (the
record's field is missing while another loaded document has one) is
truthy, makes the ObjectId conversion raise, and is shown as an error,
not a warning. -/
theorem C8_missing_image_outcome (files : List ℕ)
    (chunks : List Dashboard.Chunk) (decodeOk : List ℕ → Bool)
    (records : List Dashboard.DetRow) (r : Dashboard.DetRow)
    (_hr : r ∈ records)
    (hmiss : r.image_id = .pyNone ∨ r.image_id = .nan ∨
      ∃ fid, r.image_id = .oid fid ∧ fid ∉ files) :
    Dashboard.renderRecord files chunks decodeOk r =
        (if r.image_id = .nan then .errorShown
          else if r.image_id = .pyNone then .warnNoImage
          else .warnNotFound) ∧
      (Dashboard.renderSevereImages files chunks decodeOk records).length =
        records.length := by
  refine ⟨?_, List.length_map _ _⟩
  rcases hmiss with hnone | hnan | ⟨fid, hfid, habs⟩
  · simp [Dashboard.renderRecord, hnone]
  · simp [Dashboard.renderRecord, hnan]
  · simp [Dashboard.renderRecord, hfid, habs]

/-- Witness for C8 at a concrete input: a record with a falsy `None`
image cell is warned about and still produces an outcome. -/
theorem C8_missing_image_outcome_witness :
    Dashboard.renderRecord [5] [] (fun _ => true)
          ⟨"severe crack", some 1, some ⟨0, 0⟩, "vid", .pyNone, some 1,
            some 0, some 0⟩ =
        (if (⟨"severe crack", some 1, some ⟨0, 0⟩, "vid", .pyNone, some 1,
            some 0, some 0⟩ : Dashboard.DetRow).image_id = .nan then
          .errorShown
          else if (⟨"severe crack", some 1, some ⟨0, 0⟩, "vid", .pyNone,
              some 1, some 0, some 0⟩ : Dashboard.DetRow).image_id =
              .pyNone then
            .warnNoImage
          else .warnNotFound) ∧
      (Dashboard.renderSevereImages [5] [] (fun _ => true)
        [⟨"severe crack", some 1, some ⟨0, 0⟩, "vid", .pyNone, some 1,
          some 0, some 0⟩]).length =
        [(⟨"severe crack", some 1, some ⟨0, 0⟩, "vid", .pyNone, some 1,
          some 0, some 0⟩ : Dashboard.DetRow)].length :=
  C8_missing_image_outcome [5] [] (fun _ => true) _ _ (by decide)
    (Or.inl rfl)

/-- C3 (counterexample to the claim as stated): a payload that decodes and
parses as JSON with a present, non-None `value` field, but whose `type`
field is the falsy empty string.  The claim says exactly one alert
document is inserted; the listener inserts nothing, because the condition
on dashboard.py line 72 also requires the type value to be truthy (and no
error is printed in this case either). -/
theorem C3_counterexample :
    Dashboard.on_message "2025-01-01T00:00:00" "esp32-mainboard-01"
        (.parsed (.obj [("type", .str ""), ("value", .num 5)])) = none ∧
      Dashboard.pyGetValue [("type", .str ""), ("value", .num 5)] =
        some (.num 5) :=
  ⟨rfl, rfl⟩

/-- C3 (amended): the background listener inserts an alert document for a
received message exactly when the payload decodes, parses as a JSON
object, its `value` field is present and not JSON null (Python
`is not None`), and additionally the Python value of
`data.get("type", "UNKNOWN")` is truthy; the inserted document is then
exactly the one built by `store_alert` (timestamp, alert_type — defaulting
to `"UNKNOWN"` when `type` is absent — value, device_id).  In every other
case (undecodable payload, malformed JSON, non-object JSON, missing or
null value, falsy type) nothing is inserted, the error, when one is
raised, being printed. -/
theorem C3_alert_insertion (ts devId : String) (p : Dashboard.MsgPayload) :
    Dashboard.on_message ts devId p =
      match p with
      | .parsed (.obj fields) =>
        if Dashboard.pyTruthyOpt (Dashboard.alertTypeOf fields) &&
            (Dashboard.pyGetValue fields).isSome then
          some (Dashboard.store_alert ts devId (Dashboard.alertTypeOf fields)
            (Dashboard.pyGetValue fields))
        else none
      | _ => none := by
  cases p with
  | undecodable => rfl
  | unparseable s => rfl
  | parsed v => cases v <;> rfl

/-- C10: deselecting every option of a multiselect is equivalent to
selecting every option: on a non-empty dataframe, filtering with an empty
label (resp. source) selection gives the same filtered dataframe as
filtering with every available label (resp. source) selected. -/
theorem C10_deselect_all_fallback (df : List Dashboard.DetRow)
    (selLabels selSources : List String) (startDate endDate : ℤ)
    (hdf : df ≠ []) :
    Dashboard.applyFilters df [] selSources startDate endDate =
        Dashboard.applyFilters df (Dashboard.labels df) selSources startDate
          endDate ∧
      Dashboard.applyFilters df selLabels [] startDate endDate =
        Dashboard.applyFilters df selLabels (Dashboard.sources df) startDate
          endDate := by
  constructor <;> simp [Dashboard.applyFilters, hdf]

/-- Witness for C10 at a concrete one-row dataframe. -/
theorem C10_deselect_all_fallback_witness :
    Dashboard.applyFilters
          [⟨"cracks", some 1, some ⟨0, 0⟩, "vid", .pyNone, some 1, some 0,
            some 0⟩] [] ["vid"] 0 0 =
        Dashboard.applyFilters
          [⟨"cracks", some 1, some ⟨0, 0⟩, "vid", .pyNone, some 1, some 0,
            some 0⟩]
          (Dashboard.labels
            [⟨"cracks", some 1, some ⟨0, 0⟩, "vid", .pyNone, some 1, some 0,
              some 0⟩]) ["vid"] 0 0 ∧
      Dashboard.applyFilters
          [⟨"cracks", some 1, some ⟨0, 0⟩, "vid", .pyNone, some 1, some 0,
            some 0⟩] ["cracks"] [] 0 0 =
        Dashboard.applyFilters
          [⟨"cracks", some 1, some ⟨0, 0⟩, "vid", .pyNone, some 1, some 0,
            some 0⟩] ["cracks"]
          (Dashboard.sources
            [⟨"cracks", some 1, some ⟨0, 0⟩, "vid", .pyNone, some 1, some 0,
              some 0⟩]) 0 0 :=
  C10_deselect_all_fallback _ ["cracks"] ["vid"] 0 0 (by decide)

/-- C6 (counterexample to the claim as stated): with a non-empty dataframe
and an empty label selection, the claim says the filtered dataframe
contains exactly the rows whose label lies in the (empty) selection, i.e.
no rows; the deselect-all fallback of dashboard.py lines 134-138 instead
returns the row. -/
theorem C6_counterexample :
    Dashboard.applyFilters
        [⟨"cracks", some 1, some ⟨0, 0⟩, "vid", .pyNone, some 1, some 0,
          some 0⟩] [] ["vid"] 0 0 =
        [⟨"cracks", some 1, some ⟨0, 0⟩, "vid", .pyNone, some 1, some 0,
          some 0⟩] ∧
      ¬ ("cracks" ∈ ([] : List String)) := by
  constructor
  · decide
  · simp

/-- C6 (amended): provided at least one label and at least one source are
selected (an empty multiselect is otherwise first replaced by the full
option list), the filtered dataframe contains exactly the rows of the
loaded dataframe whose label is among the selected labels, whose video
source is among the selected sources, and whose date is present and lies
between the start and end dates inclusive. -/
theorem C6_filter_characterization (df : List Dashboard.DetRow)
    (selLabels selSources : List String) (startDate endDate : ℤ)
    (hL : selLabels ≠ []) (hS : selSources ≠ []) (r : Dashboard.DetRow) :
    r ∈ Dashboard.applyFilters df selLabels selSources startDate endDate ↔
      r ∈ df ∧ r.label ∈ selLabels ∧ r.video_source ∈ selSources ∧
        ∃ d, r.date = some d ∧ startDate ≤ d ∧ d ≤ endDate := by
  by_cases hdf : df = []
  · subst hdf
    simp [Dashboard.applyFilters]
  · unfold Dashboard.applyFilters
    simp only [hdf, hL, hS, ne_eq, not_false_iff, true_and, and_false,
      if_false, if_true, false_and, ite_false, ite_true, if_neg, not_true]
    unfold Dashboard.filtered_df
    rw [List.mem_filter]
    unfold Dashboard.rowMatches
    constructor
    · rintro ⟨hmem, hmask⟩
      simp only [Bool.and_eq_true] at hmask
      obtain ⟨⟨hlab, hsrc⟩, hdate⟩ := hmask
      refine ⟨hmem, List.elem_iff.mp hlab, List.elem_iff.mp hsrc, ?_⟩
      rcases hd : r.date with _ | d
      · rw [hd] at hdate
        simp at hdate
      · rw [hd] at hdate
        simp only [Bool.and_eq_true, decide_eq_true_eq] at hdate
        exact ⟨d, rfl, hdate.1, hdate.2⟩
    · rintro ⟨hmem, hlab, hsrc, d, hd, h1, h2⟩
      refine ⟨hmem, ?_⟩
      simp only [Bool.and_eq_true]
      refine ⟨⟨List.elem_iff.mpr hlab, List.elem_iff.mpr hsrc⟩, ?_⟩
      rw [hd]
      simp [h1, h2]

/-- Witness for C6 at a concrete input: the single row matches the
selection and is in the filtered dataframe. -/
theorem C6_filter_characterization_witness :
    (⟨"cracks", some 1, some ⟨0, 0⟩, "vid", .pyNone, some 1, some 0, some 0⟩ :
        Dashboard.DetRow) ∈
        Dashboard.applyFilters
          [⟨"cracks", some 1, some ⟨0, 0⟩, "vid", .pyNone, some 1, some 0,
            some 0⟩] ["cracks"] ["vid"] 0 0 ↔
      (⟨"cracks", some 1, some ⟨0, 0⟩, "vid", .pyNone, some 1, some 0, some 0⟩ :
          Dashboard.DetRow) ∈
          [(⟨"cracks", some 1, some ⟨0, 0⟩, "vid", .pyNone, some 1, some 0,
            some 0⟩ : Dashboard.DetRow)] ∧
        "cracks" ∈ ["cracks"] ∧ "vid" ∈ ["vid"] ∧
        ∃ d, (some 0 : Option ℤ) = some d ∧ (0 : ℤ) ≤ d ∧ d ≤ 0 :=
  C6_filter_characterization _ ["cracks"] ["vid"] 0 0 (by decide) (by decide) _

/-- C2 (counterexample to the claim as stated): a non-empty loaded
dataframe holding one row with a valid timestamp (date 0) and one row
whose timestamp coerced to `NaT` during normalization.  With every label
and every source selected and the start/end dates set to the dataframe's
minimum and maximum date (both 0), the filtered dataframe drops the `NaT`
row — pandas range comparisons on `NaT` are false — so it is not equal to
the full dataframe. -/
theorem C2_counterexample :
    Dashboard.minDate
        [⟨"cracks", some 1, some ⟨0, 0⟩, "vid", .pyNone, some 1, some 0, some 0⟩,
          ⟨"cracks", some 1, none, "vid", .pyNone, some 2, none, none⟩] =
        some 0 ∧
      Dashboard.maxDate
        [⟨"cracks", some 1, some ⟨0, 0⟩, "vid", .pyNone, some 1, some 0, some 0⟩,
          ⟨"cracks", some 1, none, "vid", .pyNone, some 2, none, none⟩] =
        some 0 ∧
      Dashboard.applyFilters
        [⟨"cracks", some 1, some ⟨0, 0⟩, "vid", .pyNone, some 1, some 0, some 0⟩,
          ⟨"cracks", some 1, none, "vid", .pyNone, some 2, none, none⟩]
        (Dashboard.labels
          [⟨"cracks", some 1, some ⟨0, 0⟩, "vid", .pyNone, some 1, some 0,
            some 0⟩,
            ⟨"cracks", some 1, none, "vid", .pyNone, some 2, none, none⟩])
        (Dashboard.sources
          [⟨"cracks", some 1, some ⟨0, 0⟩, "vid", .pyNone, some 1, some 0,
            some 0⟩,
            ⟨"cracks", some 1, none, "vid", .pyNone, some 2, none, none⟩])
        0 0 ≠
        [⟨"cracks", some 1, some ⟨0, 0⟩, "vid", .pyNone, some 1, some 0, some 0⟩,
          ⟨"cracks", some 1, none, "vid", .pyNone, some 2, none, none⟩] := by
  refine ⟨by decide, by decide, by decide⟩

/-- C2 (amended): on a non-empty loaded dataframe in which every row's
timestamp parsed to a valid datetime (no `NaT`), filtering with every
label selected, every source selected, and the start/end dates set to the
dataframe's minimum and maximum date returns the dataframe unchanged. -/
theorem C2_all_selected_identity (df : List Dashboard.DetRow) (m M : ℤ)
    (hdf : df ≠ []) (hdates : ∀ r ∈ df, r.date.isSome = true)
    (hmin : Dashboard.minDate df = some m)
    (hmax : Dashboard.maxDate df = some M) :
    Dashboard.applyFilters df (Dashboard.labels df) (Dashboard.sources df)
      m M = df := by
  unfold Dashboard.applyFilters
  rw [if_pos hdf]
  have hfall :
      (if df ≠ [] ∧ Dashboard.labels df = [] then Dashboard.labels df
        else Dashboard.labels df) = Dashboard.labels df := ite_self _
  have hfall' :
      (if df ≠ [] ∧ Dashboard.sources df = [] then Dashboard.sources df
        else Dashboard.sources df) = Dashboard.sources df := ite_self _
  rw [hfall, hfall']
  unfold Dashboard.filtered_df
  rw [List.filter_eq_self]
  intro r hr
  unfold Dashboard.rowMatches
  rcases hd : r.date with _ | d
  · have := hdates r hr
    rw [hd] at this
    simp at this
  · have hdmem : d ∈ df.filterMap Dashboard.DetRow.date :=
      List.mem_filterMap.mpr ⟨r, hr, hd⟩
    have h1 : m ≤ d := Dashboard.minD_le hmin d hdmem
    have h2 : d ≤ M := Dashboard.le_maxD hmax d hdmem
    simp only [Bool.and_eq_true]
    exact ⟨⟨List.elem_iff.mpr (Dashboard.mem_labels hr),
      List.elem_iff.mpr (Dashboard.mem_sources hr)⟩,
      by simp [h1, h2]⟩

/-- Witness for C2 at a concrete one-row dataframe with a valid date. -/
theorem C2_all_selected_identity_witness :
    Dashboard.applyFilters
        [⟨"cracks", some 1, some ⟨3, 0⟩, "vid", .pyNone, some 1, some 3, some 0⟩]
        (Dashboard.labels
          [⟨"cracks", some 1, some ⟨3, 0⟩, "vid", .pyNone, some 1, some 3,
            some 0⟩])
        (Dashboard.sources
          [⟨"cracks", some 1, some ⟨3, 0⟩, "vid", .pyNone, some 1, some 3,
            some 0⟩]) 3 3 =
      [⟨"cracks", some 1, some ⟨3, 0⟩, "vid", .pyNone, some 1, some 3, some 0⟩] :=
  C2_all_selected_identity _ 3 3 (by decide) (by decide) (by decide)
    (by decide)

/-! ## Helper lemmas for the detection loop -/

namespace Main

theorem mkRat_threshold : (mkRat 6 10 : ℚ) = 0.6 := by
  norm_num [Rat.mkRat_eq_div]

theorem stepBox_newDocs_length (cfg : Config) (fc : ℕ) (framePos : ℤ)
    (ts : String) (acc : BoxScan) (b : Box) :
    (stepBox cfg fc framePos ts acc b).newDocs.length =
      acc.newDocs.length +
        (if qualifies b && (fc % store_interval == 0) then 1 else 0) := by
  unfold stepBox
  split_ifs <;> simp_all
  all_goals split <;> simp

theorem scan_newDocs_length (cfg : Config) (fc : ℕ) (framePos : ℤ)
    (ts : String) (boxes : List Box) :
    ∀ acc : BoxScan,
      ((boxes.foldl (stepBox cfg fc framePos ts) acc).newDocs).length =
        acc.newDocs.length +
          (if fc % store_interval == 0 then numQualifying boxes else 0) := by
  induction boxes with
  | nil => intro acc; simp [numQualifying]
  | cons b bs ih =>
    intro acc
    rw [List.foldl_cons, ih, stepBox_newDocs_length]
    unfold numQualifying
    rw [List.filter_cons]
    by_cases hq : qualifies b <;>
      by_cases hst : (fc % store_interval == 0) = true <;>
        simp [hq, hst, numQualifying]
    all_goals omega

theorem boxScan_newDocs_length (cfg : Config) (fc : ℕ) (inp : LoopInput)
    (nid : ℕ) :
    (boxScan cfg fc inp nid).newDocs.length =
      if fc % store_interval == 0 then numQualifying inp.boxes else 0 := by
  unfold boxScan
  rw [scan_newDocs_length]
  simp

theorem stepFrame_docs (cfg : Config) (s : DetState) (inp : LoopInput) :
    (stepFrame cfg s inp).docs =
      s.docs ++
        (boxScan cfg (s.frame_counter + 1) inp s.nextImageId).newDocs := by
  unfold stepFrame
  split <;> rfl

theorem stepFrame_frame_counter (cfg : Config) (s : DetState)
    (inp : LoopInput) :
    (stepFrame cfg s inp).frame_counter = s.frame_counter + 1 := by
  unfold stepFrame
  split <;> rfl

theorem stepFrame_msgs (cfg : Config) (s : DetState) (inp : LoopInput) :
    (stepFrame cfg s inp).msgs =
      if attemptCond cfg s inp && inp.publishOk then s.msgs ++ ["1"]
      else s.msgs := by
  unfold stepFrame
  split <;> simp_all

theorem stepFrame_last_send_time (cfg : Config) (s : DetState)
    (inp : LoopInput) :
    (stepFrame cfg s inp).last_send_time =
      if attemptCond cfg s inp && inp.publishOk then inp.tAfter
      else s.last_send_time := by
  unfold stepFrame
  split <;> simp_all

theorem expectedDocCount_cons (fc : ℕ) (inp : LoopInput)
    (rest : List LoopInput) :
    expectedDocCount fc (inp :: rest) =
      (if (fc + 1) % store_interval == 0 then numQualifying inp.boxes
        else 0) +
        expectedDocCount (fc + 1) rest := rfl

theorem foldl_docs_length (cfg : Config) (inputs : List LoopInput) :
    ∀ s : DetState,
      ((inputs.foldl (stepFrame cfg) s).docs).length =
        s.docs.length + expectedDocCount s.frame_counter inputs := by
  induction inputs with
  | nil => intro s; simp [expectedDocCount]
  | cons inp rest ih =>
    intro s
    rw [List.foldl_cons, ih, stepFrame_docs, List.length_append,
      boxScan_newDocs_length, stepFrame_frame_counter,
      expectedDocCount_cons]
    omega

end Main

/-! ## Claim theorems for main.py -/

/-- C1 (counterexample to the claim as stated): a run reading a single
frame that contains twenty qualifying boxes.  The twentieth qualifying
detection is encountered during this run, so the claim requires one
detection record to be inserted; the loop inserts nothing, because the
persistence condition of main.py line 143 tests `frame_counter`
(here 1) for divisibility by 20, not the count of qualifying
detections. -/
theorem C1_counterexample :
    Main.totalQualifying
        [⟨List.replicate 20 ⟨1, "cracks"⟩, 1, "ts", 10, 10, true⟩] = 20 ∧
      (Main.runDetection ⟨true, "vid"⟩
        [⟨List.replicate 20 ⟨1, "cracks"⟩, 1, "ts", 10, 10, true⟩]).docs =
        [] := by
  refine ⟨by decide, by with_unfolding_all decide⟩

/-- C1 (amended): the detection loop persists qualifying detections by
frame, not by detection count: the number of detection records inserted
during a run equals the number of qualifying boxes found in frames whose
1-based frame counter is divisible by `store_interval = 20`; qualifying
boxes of all other frames insert nothing. -/
theorem C1_persist_on_20th_frames (cfg : Main.Config)
    (inputs : List Main.LoopInput) :
    (Main.runDetection cfg inputs).docs.length =
      Main.expectedDocCount 0 inputs := by
  unfold Main.runDetection
  have h := Main.foldl_docs_length cfg inputs Main.initState
  simpa [Main.initState] using h

namespace Main

/-- The invariant of every document built by the loop body: a stored-image
reference is attached exactly for the `"severe crack"` label, and the
confidence cleared the 0.6 threshold. -/
def DocInv (d : DetDoc) : Prop :=
  (d.image_id.isSome = true ↔ d.label = "severe crack") ∧
    (0.6 : ℚ) < d.confidence

theorem stepBox_docInv (cfg : Config) (fc : ℕ) (framePos : ℤ) (ts : String)
    (acc : BoxScan) (b : Box)
    (hacc : ∀ d ∈ acc.newDocs, DocInv d) :
    ∀ d ∈ (stepBox cfg fc framePos ts acc b).newDocs, DocInv d := by
  intro d hd
  unfold stepBox at hd
  by_cases hq : qualifies b
  · rw [if_pos hq] at hd
    have hconf : (0.6 : ℚ) < b.conf := by
      have h2 := (Bool.and_eq_true _ _).mp hq |>.2
      rw [← mkRat_threshold]
      exact of_decide_eq_true h2
    by_cases hsev : (pyLower b.name == "severe crack") = true
    · simp only [hsev, if_true] at hd
      by_cases hst : (fc % store_interval == 0) = true
      · simp only [hst, if_true] at hd
        rcases List.mem_append.mp hd with hold | hnew
        · exact hacc d hold
        · rw [List.mem_singleton] at hnew
          subst hnew
          exact ⟨by simp [eq_of_beq hsev], hconf⟩
      · simp only [hst, if_false] at hd
        exact hacc d hd
    · simp only [hsev, if_false] at hd
      by_cases hst : (fc % store_interval == 0) = true
      · simp only [hst, if_true] at hd
        rcases List.mem_append.mp hd with hold | hnew
        · exact hacc d hold
        · rw [List.mem_singleton] at hnew
          subst hnew
          refine ⟨?_, hconf⟩
          simp only [Option.isSome_none]
          constructor
          · intro h
            cases h
          · intro h
            rw [h] at hsev
            simp at hsev
      · simp only [hst, if_false] at hd
        exact hacc d hd
  · rw [if_neg hq] at hd
    exact hacc d hd

theorem scan_docInv (cfg : Config) (fc : ℕ) (framePos : ℤ) (ts : String)
    (boxes : List Box) :
    ∀ acc : BoxScan, (∀ d ∈ acc.newDocs, DocInv d) →
      ∀ d ∈ (boxes.foldl (stepBox cfg fc framePos ts) acc).newDocs,
        DocInv d := by
  induction boxes with
  | nil => intro acc hacc; exact hacc
  | cons b bs ih =>
    intro acc hacc
    rw [List.foldl_cons]
    exact ih _ (stepBox_docInv cfg fc framePos ts acc b hacc)

theorem foldl_docInv (cfg : Config) (inputs : List LoopInput) :
    ∀ s : DetState, (∀ d ∈ s.docs, DocInv d) →
      ∀ d ∈ (inputs.foldl (stepFrame cfg) s).docs, DocInv d := by
  induction inputs with
  | nil => intro s hs; exact hs
  | cons inp rest ih =>
    intro s hs
    rw [List.foldl_cons]
    refine ih _ ?_
    rw [stepFrame_docs]
    intro d hd
    rcases List.mem_append.mp hd with hold | hnew
    · exact hs d hold
    · exact scan_docInv cfg (s.frame_counter + 1) inp.framePos inp.timestamp
        inp.boxes _ (by intro d hd; cases hd) d hnew

end Main

/-- C9: every document the detection script inserts carries an `image_id`
field exactly when its label is `"severe crack"` (documents labelled
`"cracks"` never carry a stored-image reference), and every inserted
document has confidence strictly greater than 0.6. -/
theorem C9_document_invariant (cfg : Main.Config)
    (inputs : List Main.LoopInput) :
    ∀ d ∈ (Main.runDetection cfg inputs).docs,
      (d.image_id.isSome = true ↔ d.label = "severe crack") ∧
        (0.6 : ℚ) < d.confidence := by
  intro d hd
  exact Main.foldl_docInv cfg inputs Main.initState (by intro d hd; cases hd)
    d hd

/-- Witness for C9: a run of twenty frames whose last frame holds one
severe-crack box inserts exactly that box's document, and the invariant
holds at it. -/
theorem C9_document_invariant_witness :
    ((⟨"ts", "severe crack", 1, 20, "vid", some 0⟩ :
        Main.DetDoc).image_id.isSome = true ↔
      (⟨"ts", "severe crack", 1, 20, "vid", some 0⟩ :
        Main.DetDoc).label = "severe crack") ∧
      (0.6 : ℚ) <
        (⟨"ts", "severe crack", 1, 20, "vid", some 0⟩ :
          Main.DetDoc).confidence :=
  C9_document_invariant ⟨true, "vid"⟩
    (List.replicate 19 ⟨[], 0, "ts", 0, 0, true⟩ ++
      [⟨[⟨1, "severe crack"⟩], 20, "ts", 10, 10, true⟩])
    ⟨"ts", "severe crack", 1, 20, "vid", some 0⟩
    (by with_unfolding_all decide)

namespace Main

theorem runUpTo_succ (cfg : Config) (inputs : List LoopInput) (i : ℕ)
    (h : i < inputs.length) :
    runUpTo cfg inputs (i + 1) =
      stepFrame cfg (runUpTo cfg inputs i) inputs[i] := by
  unfold runUpTo
  rw [List.take_succ, List.getElem?_eq_getElem h, List.foldl_append]
  rfl

theorem publishesAt_iff (cfg : Config) (inputs : List LoopInput) (i : ℕ)
    (h : i < inputs.length) :
    publishesAt cfg inputs i = true ↔
      (attemptCond cfg (runUpTo cfg inputs i) inputs[i] &&
        inputs[i].publishOk) = true := by
  unfold publishesAt
  rw [runUpTo_succ cfg inputs i h, stepFrame_msgs]
  by_cases hc :
      (attemptCond cfg (runUpTo cfg inputs i) inputs[i] &&
        inputs[i].publishOk) = true
  · simp [hc]
  · simp [hc]

theorem attemptAt_iff (cfg : Config) (inputs : List LoopInput) (i : ℕ)
    (h : i < inputs.length) :
    attemptAt cfg inputs i = true ↔
      attemptCond cfg (runUpTo cfg inputs i) inputs[i] = true := by
  unfold attemptAt
  rw [List.getElem?_eq_getElem h]

/-- After `k` frames, `last_send_time` is at least the post-publish clock
value of every earlier frame that published successfully. -/
theorem last_send_time_ge (cfg : Config) (inputs : List LoopInput)
    (hch : chronological inputs) :
    ∀ k, k ≤ inputs.length → ∀ i, ∀ hi : i < inputs.length, i < k →
      publishesAt cfg inputs i = true →
      inputs[i].tAfter ≤ (runUpTo cfg inputs k).last_send_time := by
  intro k
  induction k with
  | zero =>
    intro _ i hi hik _
    exact absurd hik (Nat.not_lt_zero i)
  | succ k ih =>
    intro hk1 i hi hik hpub
    have hk : k < inputs.length := lt_of_lt_of_le (Nat.lt_succ_self k) hk1
    rw [runUpTo_succ cfg inputs k hk, stepFrame_last_send_time]
    by_cases hc :
        (attemptCond cfg (runUpTo cfg inputs k) inputs[k] &&
          inputs[k].publishOk) = true
    · rw [if_pos hc]
      rcases Nat.lt_succ_iff_lt_or_eq.mp hik with hik' | rfl
      · have h1 : (inputs.get ⟨i, hi⟩).tAfter ≤ (inputs.get ⟨k, hk⟩).tNow :=
          hch.2 ⟨i, hi⟩ ⟨k, hk⟩ hik'
        have h2 : (inputs.get ⟨k, hk⟩).tNow ≤ (inputs.get ⟨k, hk⟩).tAfter :=
          hch.1 ⟨k, hk⟩
        simpa [List.get_eq_getElem] using le_trans h1 h2
      · exact le_refl _
    · rw [if_neg hc]
      rcases Nat.lt_succ_iff_lt_or_eq.mp hik with hik' | rfl
      · exact ih (Nat.le_of_succ_le hk1) i hi hik' hpub
      · rw [publishesAt_iff cfg inputs i hi] at hpub
        exact absurd hpub hc

theorem stepBox_flags (cfg : Config) (fc : ℕ) (framePos : ℤ) (ts : String)
    (acc : BoxScan) (b : Box) :
    ((stepBox cfg fc framePos ts acc b).crack_detected ||
      (stepBox cfg fc framePos ts acc b).severe_crack_detected) =
      ((acc.crack_detected || acc.severe_crack_detected) || qualifies b) := by
  unfold stepBox
  cases hq : qualifies b
  · simp
  · simp only [if_true]
    split_ifs <;> simp

theorem scan_flags (cfg : Config) (fc : ℕ) (framePos : ℤ) (ts : String)
    (boxes : List Box) :
    ∀ acc : BoxScan,
      ((boxes.foldl (stepBox cfg fc framePos ts) acc).crack_detected ||
        (boxes.foldl (stepBox cfg fc framePos ts) acc).severe_crack_detected) =
        ((acc.crack_detected || acc.severe_crack_detected) ||
          boxes.any qualifies) := by
  induction boxes with
  | nil => intro acc; simp
  | cons b bs ih =>
    intro acc
    rw [List.foldl_cons, ih, stepBox_flags, List.any_cons]
    cases acc.crack_detected <;> cases acc.severe_crack_detected <;>
      cases qualifies b <;> simp

theorem boxScan_flags (cfg : Config) (fc : ℕ) (inp : LoopInput) (nid : ℕ) :
    ((boxScan cfg fc inp nid).crack_detected ||
      (boxScan cfg fc inp nid).severe_crack_detected) =
      inp.boxes.any qualifies := by
  unfold boxScan
  rw [scan_flags]
  simp

theorem foldl_msgs_one (cfg : Config) (inputs : List LoopInput) :
    ∀ s : DetState, (∀ m ∈ s.msgs, m = "1") →
      ∀ m ∈ (inputs.foldl (stepFrame cfg) s).msgs, m = "1" := by
  induction inputs with
  | nil => intro s hs; exact hs
  | cons inp rest ih =>
    intro s hs
    rw [List.foldl_cons]
    refine ih _ ?_
    rw [stepFrame_msgs]
    by_cases hc : (attemptCond cfg s inp && inp.publishOk) = true
    · rw [if_pos hc]
      intro m hm
      rcases List.mem_append.mp hm with hold | hnew
      · exact hs m hold
      · rw [List.mem_singleton] at hnew
        exact hnew
    · rw [if_neg hc]
      exact hs

end Main

/-- C4: the detection script enforces the one-second publish cooldown: a
publish attempt (reaching `mqtt_client.publish`) at frame `j` happens only
when strictly more than `send_interval = 1.0` seconds elapsed since the
clock value recorded at the last successful publish, so any earlier
successful publish at frame `i` lies strictly more than one second in the
past: the cooldown check of frame `j` reads a clock strictly more than one
second after the post-publish clock of frame `i`.  In particular two
successful publishes are never less than one second apart. -/
theorem C4_publish_cooldown (cfg : Main.Config)
    (inputs : List Main.LoopInput) (hch : Main.chronological inputs)
    (i j : ℕ) (hi : i < inputs.length) (hj : j < inputs.length)
    (hij : i < j) (hpub : Main.publishesAt cfg inputs i = true)
    (hatt : Main.attemptAt cfg inputs j = true) :
    inputs[j].tNow - inputs[i].tAfter > Main.send_interval := by
  have hcond := (Main.attemptAt_iff cfg inputs j hj).mp hatt
  simp only [Main.attemptCond, Bool.and_eq_true] at hcond
  have hgap :
      inputs[j].tNow - (Main.runUpTo cfg inputs j).last_send_time >
        Main.send_interval :=
    of_decide_eq_true hcond.1.2
  have hle := Main.last_send_time_ge cfg inputs hch j (le_of_lt hj) i hi hij
    hpub
  linarith

/-- Witness for C4 at a concrete two-frame run: both frames find a
qualifying box and publish; the second attempt happens two seconds after
the first publish, more than the one-second cooldown. -/
theorem C4_publish_cooldown_witness :
    Main.chronological
        [⟨[⟨1, "cracks"⟩], 1, "t1", 10, 10, true⟩,
          ⟨[⟨1, "cracks"⟩], 2, "t2", 12, 12, true⟩] ∧
      Main.publishesAt ⟨true, "vid"⟩
          [⟨[⟨1, "cracks"⟩], 1, "t1", 10, 10, true⟩,
            ⟨[⟨1, "cracks"⟩], 2, "t2", 12, 12, true⟩] 0 = true ∧
      Main.attemptAt ⟨true, "vid"⟩
          [⟨[⟨1, "cracks"⟩], 1, "t1", 10, 10, true⟩,
            ⟨[⟨1, "cracks"⟩], 2, "t2", 12, 12, true⟩] 1 = true ∧
      ([⟨[⟨1, "cracks"⟩], 1, "t1", 10, 10, true⟩,
          ⟨[⟨1, "cracks"⟩], 2, "t2", 12, 12, true⟩] :
        List Main.LoopInput)[1].tNow -
          ([⟨[⟨1, "cracks"⟩], 1, "t1", 10, 10, true⟩,
            ⟨[⟨1, "cracks"⟩], 2, "t2", 12, 12, true⟩] :
          List Main.LoopInput)[0].tAfter >
        Main.send_interval :=
  ⟨by decide, by with_unfolding_all decide, by with_unfolding_all decide,
    C4_publish_cooldown ⟨true, "vid"⟩ _ (by decide) 0 1 (by decide)
      (by decide) (by decide) (by with_unfolding_all decide)
      (by with_unfolding_all decide)⟩

/-- C5: every payload the detection script publishes on the crack topic is
the literal string `"1"`, and a frame publishes only when at least one of
its boxes qualifies (label `"cracks"` or `"severe crack"`, confidence
strictly above 0.6) and the cooldown has elapsed since the last recorded
publish time. -/
theorem C5_payload_and_publish_condition (cfg : Main.Config)
    (inputs : List Main.LoopInput) :
    (∀ m ∈ (Main.runDetection cfg inputs).msgs, m = "1") ∧
      ∀ i : ℕ, ∀ hi : i < inputs.length,
        Main.publishesAt cfg inputs i = true →
        (∃ b ∈ inputs[i].boxes, Main.qualifies b = true) ∧
          inputs[i].tNow - (Main.runUpTo cfg inputs i).last_send_time >
            Main.send_interval := by
  constructor
  · intro m hm
    exact Main.foldl_msgs_one cfg inputs Main.initState
      (by intro m hm; cases hm) m hm
  · intro i hi hpub
    have hcond := (Main.publishesAt_iff cfg inputs i hi).mp hpub
    rw [Bool.and_eq_true] at hcond
    have hatt := hcond.1
    simp only [Main.attemptCond, Bool.and_eq_true] at hatt
    obtain ⟨⟨hflags, hdec⟩, _⟩ := hatt
    constructor
    · rw [Main.boxScan_flags] at hflags
      exact List.any_eq_true.mp hflags
    · exact of_decide_eq_true hdec

/-- Witness for C5 at a concrete one-frame run that publishes. -/
theorem C5_payload_and_publish_condition_witness :
    (∃ b ∈ ([⟨[⟨1, "cracks"⟩], 1, "t1", 10, 10, true⟩] :
        List Main.LoopInput)[0].boxes, Main.qualifies b = true) ∧
      ([⟨[⟨1, "cracks"⟩], 1, "t1", 10, 10, true⟩] :
          List Main.LoopInput)[0].tNow -
          (Main.runUpTo ⟨true, "vid"⟩
            [⟨[⟨1, "cracks"⟩], 1, "t1", 10, 10, true⟩] 0).last_send_time >
        Main.send_interval :=
  (C5_payload_and_publish_condition ⟨true, "vid"⟩
      [⟨[⟨1, "cracks"⟩], 1, "t1", 10, 10, true⟩]).2 0 (by decide)
    (by with_unfolding_all decide)
